import Mathlib

/-!
# Verification of the ChatAppServer session and command-dispatch layer

Shallow embedding of the agent-authentication protocol, the command
dispatch/correlation engine, the chat message reactions, and the chat
socket lifecycle of the ChatAppServer repository
(`src/routes/agents.js`, the agent socket handler, the database-backed
socket handler, and `src/models/Message.js`), together with theorems
settling the specification claims.

Conventions of the embedding:
* JavaScript `Map` objects become insertion-ordered association lists
  (`JsMap`): `set` overwrites in place or appends, `values()` preserves
  insertion order, exactly as in JS.
* Node `Buffer.from(s, 'hex')` becomes `hexDecode`: it decodes pairs of
  hex digits and stops at the first invalid pair, dropping a trailing
  lone digit.
* Node `crypto.timingSafeEqual` becomes `timingSafeEqual`, which errors
  (models the thrown `RangeError`) when the two byte strings have
  different lengths and otherwise reports byte equality.
* The cryptographic digests themselves (`crypto.createHmac('sha256',...)`
  with hex output, and the base64 fallback string) are Node-library
  collaborators, not code of this repository; they enter the model as
  function parameters (`hmacHex`, `simpleSig`) about which only the
  shapes guaranteed by Node are assumed where needed: an HMAC-SHA256 hex
  digest is 64 hex characters, and the base64 fallback
  `Buffer.from(json + secret).toString('base64').substring(0, 32)` is 32
  characters long.
* JavaScript truthiness of the request fields is modelled by `≠ ""` for
  strings and `≠ 0` for the numeric timestamp.
-/

set_option autoImplicit false
set_option linter.unnecessarySeqFocus false
set_option linter.unusedVariables false

namespace ChatAppServer

/-! ## JavaScript collaborator primitives -/

/-- Insertion-ordered association list modelling a JavaScript `Map` with
string keys. -/
abbrev JsMap (v : Type) : Type := List (String × v)

/-- `m.has(k)` for a JavaScript `Map`. -/
def mapHas {v : Type} (m : JsMap v) (k : String) : Bool :=
  m.any (fun p => p.1 == k)

/-- `m.get(k)` for a JavaScript `Map` (`none` when absent). -/
def mapGet? {v : Type} (m : JsMap v) (k : String) : Option v :=
  (m.find? (fun p => p.1 == k)).map Prod.snd

/-- `m.set(k, val)` for a JavaScript `Map`: overwrites in place when the
key exists, otherwise appends (JS `Map` preserves insertion order). -/
def mapSet {v : Type} (m : JsMap v) (k : String) (val : v) : JsMap v :=
  if mapHas m k then m.map (fun p => if p.1 == k then (k, val) else p)
  else m ++ [(k, val)]

/-- `m.delete(k)` for a JavaScript `Map`. -/
def mapDel {v : Type} (m : JsMap v) (k : String) : JsMap v :=
  m.filter (fun p => !(p.1 == k))

/-- `Array.from(m.values())` for a JavaScript `Map`, in insertion order. -/
def mapValues {v : Type} (m : JsMap v) : List v :=
  m.map Prod.snd

/-- `Array.from(m.keys())` for a JavaScript `Map`, in insertion order. -/
def mapKeys {v : Type} (m : JsMap v) : List String :=
  m.map Prod.fst

/-- Value of a single hexadecimal digit, as parsed by Node's hex decoder. -/
def hexVal? (c : Char) : Option Nat :=
  if '0' ≤ c ∧ c ≤ '9' then some (c.toNat - '0'.toNat)
  else if 'a' ≤ c ∧ c ≤ 'f' then some (c.toNat - 'a'.toNat + 10)
  else if 'A' ≤ c ∧ c ≤ 'F' then some (c.toNat - 'A'.toNat + 10)
  else none

/-- `c` is a hexadecimal digit. -/
def isHexChar (c : Char) : Bool :=
  (hexVal? c).isSome

/-- Node `Buffer.from(s, 'hex')`: decode pairs of hex digits into bytes,
stopping at the first invalid pair; a trailing lone digit is dropped. -/
def hexDecode : List Char → List Nat
  | c1 :: c2 :: rest =>
    match hexVal? c1, hexVal? c2 with
    | some h, some l => (16 * h + l) :: hexDecode rest
    | _, _ => []
  | _ => []

/-- Node `crypto.timingSafeEqual(a, b)`: throws (`.error`) when the byte
lengths differ, otherwise compares for equality (in constant time). -/
def timingSafeEqual (a b : List Nat) : Except Unit Bool :=
  if a.length = b.length then .ok (decide (a = b)) else .error ()

/-- An HMAC-SHA256 hex digest as produced by Node
(`hmac.digest('hex')`): 64 hexadecimal characters. -/
def isHex64 (s : String) : Prop :=
  s.data.length = 64 ∧ ∀ c ∈ s.data, isHexChar c = true

instance (s : String) : Decidable (isHex64 s) := by
  unfold isHex64; infer_instance

/-! ## Agent handshake payload and signature verification

`createSignature(data)` is `hmac-sha256(secret, JSON.stringify(data))`
in hex; the payload is always the canonical `{agentId, platform,
timestamp}` record, so the digest enters the model as a function
`hmacHex : AuthPayload → String` (absorbing `JSON.stringify`). The
base64 fallback of `src/routes/agents.js` similarly enters as
`simpleSig : AuthPayload → String`. -/

/-- The canonical `{agentId, platform, timestamp}` authentication
payload. -/
structure AuthPayload where
  agentId : String
  platform : String
  timestamp : Int
  deriving DecidableEq, Repr

/-- `verifySignature` of the agent socket handler:
`crypto.timingSafeEqual(Buffer.from(signature, 'hex'),
Buffer.from(expectedSignature, 'hex'))`; the thrown length-mismatch
error propagates as `.error`. -/
def verifySignatureSock (hmacHex : AuthPayload → String)
    (data : AuthPayload) (signature : String) : Except Unit Bool :=
  timingSafeEqual (hexDecode signature.data) (hexDecode (hmacHex data).data)

/-- `verifySignature` of `src/routes/agents.js`: first the constant-time
HMAC comparison (whose length-mismatch throw propagates), then on
plain inequality the fallback string comparison
`signature === simpleSignature`. -/
def verifySignatureHttp (hmacHex simpleSig : AuthPayload → String)
    (data : AuthPayload) (signature : String) : Except Unit Bool :=
  match timingSafeEqual (hexDecode signature.data)
      (hexDecode (hmacHex data).data) with
  | .error _ => .error ()
  | .ok true => .ok true
  | .ok false => .ok (decide (signature = simpleSig data))

/-! ## Agent registries -/

/-- A handshake request body `{agentId, platform, timestamp, signature}`.
Absent/falsy fields are the empty string (resp. `0` for the numeric
timestamp), matching the handlers' `!field` checks. -/
structure AuthReq where
  agentId : String
  platform : String
  timestamp : Int
  signature : String
  deriving DecidableEq, Repr

/-- Entry of `activeAgents` in `src/routes/agents.js`. -/
structure AgentRec where
  agentId : String
  platform : String
  connectedAt : Int
  lastSeen : Int
  status : String
  deriving DecidableEq, Repr

/-- Entry of `agentConnections` in the agent socket handler. -/
structure AgentConn where
  socketId : String
  agentId : String
  platform : String
  connectedAt : Int
  lastSeen : Int
  status : String
  disconnectedAt : Option Int := none
  deriving DecidableEq, Repr

/-- Outcome of `POST /api/agents/authenticate`: the 400 missing-fields
response, the 401 bad-signature response, the 401 expired-timestamp
response, the 500 catch-all (reached when `timingSafeEqual` throws), or
the signed success response. -/
inductive HttpAuthResult where
  | missingFields
  | badSignature
  | timestampExpired
  | serverError
  | ok (agentId : String) (timestamp : Int)
  deriving DecidableEq, Repr

/-- `router.post('/authenticate')` of `src/routes/agents.js`: field
check, then signature verification, then the 5-minute replay window,
then registration into `activeAgents`. -/
def authenticateHttp (hmacHex simpleSig : AuthPayload → String)
    (activeAgents : JsMap AgentRec) (now : Int) (req : AuthReq) :
    HttpAuthResult × JsMap AgentRec :=
  if req.agentId = "" ∨ req.platform = "" ∨ req.timestamp = 0 ∨ req.signature = "" then
    (.missingFields, activeAgents)
  else
    match verifySignatureHttp hmacHex simpleSig
        ⟨req.agentId, req.platform, req.timestamp⟩ req.signature with
    | .error _ => (.serverError, activeAgents)
    | .ok false => (.badSignature, activeAgents)
    | .ok true =>
      if (now - req.timestamp).natAbs > 300000 then
        (.timestampExpired, activeAgents)
      else
        (.ok req.agentId now,
          mapSet activeAgents req.agentId
            { agentId := req.agentId, platform := req.platform,
              connectedAt := now, lastSeen := now, status := "authenticated" })

/-- Outcome of the socket `agent:authenticate` event:
`agent:auth_failed` with one of its three messages, the generic
`Authentication failed` emitted from the catch block (reached when
`timingSafeEqual` throws), or `agent:authenticated`. -/
inductive SockAuthResult where
  | authFailedMissing
  | authFailedBadSig
  | authFailedExpired
  | authFailedGeneric
  | authenticated (agentId : String) (timestamp : Int)
  deriving DecidableEq, Repr

/-- The `agent:authenticate` handler of the agent socket handler.
Returns the emitted outcome, the updated `agentConnections` registry,
and the `socket.agentId` assignment (`none` when the handshake failed
before that assignment). -/
def agentAuthenticateSock (hmacHex : AuthPayload → String)
    (agentConnections : JsMap AgentConn) (now : Int) (socketId : String)
    (req : AuthReq) : SockAuthResult × JsMap AgentConn × Option String :=
  if req.agentId = "" ∨ req.platform = "" ∨ req.timestamp = 0 ∨ req.signature = "" then
    (.authFailedMissing, agentConnections, none)
  else
    match verifySignatureSock hmacHex
        ⟨req.agentId, req.platform, req.timestamp⟩ req.signature with
    | .error _ => (.authFailedGeneric, agentConnections, none)
    | .ok false => (.authFailedBadSig, agentConnections, none)
    | .ok true =>
      if (now - req.timestamp).natAbs > 300000 then
        (.authFailedExpired, agentConnections, none)
      else
        (.authenticated req.agentId now,
          mapSet agentConnections req.agentId
            { socketId := socketId, agentId := req.agentId,
              platform := req.platform, connectedAt := now,
              lastSeen := now, status := "authenticated" },
          some req.agentId)

/-! ## Command dispatch and correlation -/

/-- A command object. `completedAt` is set only when a response is
correlated (JS adds the field dynamically). -/
structure Command where
  id : String
  agentId : String
  module : String
  action : String
  params : String
  priority : String
  timestamp : Int
  status : String
  authHash : String
  completedAt : Option Int := none
  deriving DecidableEq, Repr

/-- A `response:command` / `POST /api/agents/response` body. -/
structure RespReq where
  commandId : String
  agentId : String
  module : String
  status : String
  data : String
  error : String
  executionTime : Int
  deriving DecidableEq, Repr

/-- Entry of `pendingCommands` in the agent socket handler:
`{...authenticatedCommand, status: 'sent', sentAt}`, later mutated by
`response:command`. -/
structure PendingEntry where
  cmd : Command
  sentAt : Int
  response : Option RespReq := none
  deriving DecidableEq, Repr

/-- A command emission `socket.emit('command:<module>', cmd)` on a
specific agent socket. -/
structure AgentEmit where
  socketId : String
  channel : String
  cmd : Command
  deriving DecidableEq, Repr

/-- Outcome of `sendCommandToAgent`: the `Agent not found` throw, the
`Agent socket not found` throw, or a successful send (`return true`). -/
inductive SendResult where
  | notFound
  | socketMissing
  | sent
  deriving DecidableEq, Repr

/-- `sendCommandToAgent(io, agentId, command)` of the agent socket
handler. `authHashOf id action` abstracts
`sha256(id + action + SHARED_SECRET)` in hex; `sockets` is the set of
live socket ids of `io.sockets.sockets`. The pending-command store is
written *before* the socket lookup, so the `socketMissing` throw leaves
the command recorded. -/
def sendCommandToAgent (authHashOf : String → String → String)
    (agentConnections : JsMap AgentConn) (sockets : List String)
    (pendingCommands : JsMap PendingEntry) (now : Int)
    (agentId : String) (command : Command) :
    SendResult × JsMap PendingEntry × List AgentEmit :=
  match mapGet? agentConnections agentId with
  | none => (.notFound, pendingCommands, [])
  | some agent =>
    let authenticatedCommand :=
      { command with timestamp := now,
                     authHash := authHashOf command.id command.action }
    let pending' := mapSet pendingCommands command.id
      { cmd := { authenticatedCommand with status := "sent" }, sentAt := now }
    if agent.socketId ∈ sockets then
      (.sent, pending',
        [⟨agent.socketId, "command:" ++ command.module, authenticatedCommand⟩])
    else
      (.socketMissing, pending', [])

/-- The `for (const agent of activeAgents)` loop of
`broadcastCommandToAllAgents`, with its per-agent `try`/`catch`: a throw
from `sendCommandToAgent` records `success: false` and the loop
continues (state mutated before the throw persists). -/
def broadcastLoop (authHashOf : String → String → String)
    (agentConnections : JsMap AgentConn) (sockets : List String)
    (now : Int) (command : Command) :
    List AgentConn → JsMap PendingEntry →
    List (String × Bool) × JsMap PendingEntry × List AgentEmit
  | [], pending => ([], pending, [])
  | agent :: rest, pending =>
    let step := sendCommandToAgent authHashOf agentConnections sockets
      pending now agent.agentId command
    let tail := broadcastLoop authHashOf agentConnections sockets now command
      rest step.2.1
    ((agent.agentId, decide (step.1 = .sent)) :: tail.1, tail.2.1,
      step.2.2 ++ tail.2.2)

/-- `broadcastCommandToAllAgents(io, command)` of the agent socket
handler: filter the registry to status `authenticated`/`active`, then
send the *same* command object to each, collecting per-agent results. -/
def broadcastCommandToAllAgents (authHashOf : String → String → String)
    (agentConnections : JsMap AgentConn) (sockets : List String)
    (pendingCommands : JsMap PendingEntry) (now : Int) (command : Command) :
    List (String × Bool) × JsMap PendingEntry × List AgentEmit :=
  let activeAgents := (mapValues agentConnections).filter
    (fun agent => agent.status == "authenticated" || agent.status == "active")
  broadcastLoop authHashOf agentConnections sockets now command
    activeAgents pendingCommands

/-- Outcome of `POST /api/agents/command`. -/
inductive CmdHttpResult where
  | missingFields
  | agentNotFound
  | success (commandId : String)
  deriving DecidableEq, Repr

/-- `router.post('/command')` of `src/routes/agents.js`: validate
fields, require a registered agent, then create/store the command (with
a fresh `crypto.randomUUID()` id, supplied as `freshId`) and refresh the
agent entry to `command_sent`. -/
def commandHttp (authHashOf : String → String → String) (freshId : String)
    (activeAgents : JsMap AgentRec) (agentCommands : JsMap Command)
    (now : Int) (agentId module action params priority : String) :
    CmdHttpResult × JsMap AgentRec × JsMap Command :=
  if agentId = "" ∨ module = "" ∨ action = "" then
    (.missingFields, activeAgents, agentCommands)
  else if ¬ mapHas activeAgents agentId then
    (.agentNotFound, activeAgents, agentCommands)
  else
    let command : Command :=
      { id := freshId, agentId := agentId, module := module, action := action,
        params := params, priority := priority, timestamp := now,
        status := "pending", authHash := authHashOf freshId action }
    let agentCommands' := mapSet agentCommands freshId command
    let activeAgents' :=
      match mapGet? activeAgents agentId with
      | some agent =>
        mapSet activeAgents agentId
          { agent with lastSeen := now, status := "command_sent" }
      | none => activeAgents
    (.success freshId, activeAgents', agentCommands')

/-- Outcome of `POST /api/agents/broadcast`. -/
inductive BroadcastHttpResult where
  | missingFields
  | success (commandIds : List String)
  deriving DecidableEq, Repr

/-- The `for (const agentId of activeAgentIds)` loop of
`router.post('/broadcast')`: one fresh `crypto.randomUUID()` per
iteration (`uuid n` is the id drawn at step `n`). -/
def broadcastHttpLoop (authHashOf : String → String → String)
    (uuid : Nat → String) (now : Int) (module action params priority : String) :
    List String → Nat → JsMap Command → List String × JsMap Command
  | [], _, cmds => ([], cmds)
  | agentId :: rest, n, cmds =>
    let command : Command :=
      { id := uuid n, agentId := agentId, module := module, action := action,
        params := params, priority := priority, timestamp := now,
        status := "pending", authHash := authHashOf (uuid n) action }
    let tail := broadcastHttpLoop authHashOf uuid now module action params
      priority rest (n + 1) (mapSet cmds (uuid n) command)
    (uuid n :: tail.1, tail.2)

/-- `router.post('/broadcast')` of `src/routes/agents.js`: iterates over
*all* keys of `activeAgents` (no status filter), storing one freshly
identified command per agent; it never touches the agent registry and
emits nothing on any socket. -/
def broadcastHttp (authHashOf : String → String → String)
    (uuid : Nat → String) (activeAgents : JsMap AgentRec)
    (agentCommands : JsMap Command) (now : Int)
    (module action params priority : String) :
    BroadcastHttpResult × JsMap Command :=
  if module = "" ∨ action = "" then
    (.missingFields, agentCommands)
  else
    let run := broadcastHttpLoop authHashOf uuid now module action params
      priority (mapKeys activeAgents) 0 agentCommands
    (.success run.1, run.2)

/-- Entry of `agentResponses` in `src/routes/agents.js`. -/
structure RespRec where
  commandId : String
  agentId : String
  module : String
  status : String
  data : String
  error : String
  executionTime : Int
  receivedAt : Int
  deriving DecidableEq, Repr

/-- Outcome of `POST /api/agents/response`. -/
inductive RespHttpResult where
  | missingFields
  | commandNotFound
  | success
  deriving DecidableEq, Repr

/-- `router.post('/response')` of `src/routes/agents.js`: validate
fields, reject unknown `commandId` with 404 before any mutation,
otherwise store the response record, advance the command's status, and
refresh the agent entry (when present) to `active`. -/
def responseHttp (activeAgents : JsMap AgentRec)
    (agentCommands : JsMap Command) (agentResponses : JsMap RespRec)
    (now : Int) (r : RespReq) :
    RespHttpResult × JsMap AgentRec × JsMap Command × JsMap RespRec :=
  if r.commandId = "" ∨ r.agentId = "" ∨ r.status = "" then
    (.missingFields, activeAgents, agentCommands, agentResponses)
  else if ¬ mapHas agentCommands r.commandId then
    (.commandNotFound, activeAgents, agentCommands, agentResponses)
  else
    let response : RespRec :=
      { commandId := r.commandId, agentId := r.agentId, module := r.module,
        status := r.status, data := r.data, error := r.error,
        executionTime := r.executionTime, receivedAt := now }
    let agentResponses' := mapSet agentResponses r.commandId response
    let agentCommands' :=
      match mapGet? agentCommands r.commandId with
      | some command =>
        mapSet agentCommands r.commandId
          { command with status := r.status, completedAt := some now }
      | none => agentCommands
    let activeAgents' :=
      match mapGet? activeAgents r.agentId with
      | some agent =>
        mapSet activeAgents r.agentId
          { agent with lastSeen := now, status := "active" }
      | none => activeAgents
    (.success, activeAgents', agentCommands', agentResponses')

/-- The `response:command` handler of the agent socket handler: on
missing fields it only logs; an unknown `commandId` is silently
discarded (no error emission exists anywhere in this handler); a known
one is updated in place; in either case a known `agentId` gets
`lastSeen`/`status` refreshed. The delayed 5-minute
`pendingCommands.delete` is retention-window eviction and outside this
step. Emits nothing. -/
def responseCommandSock (agentConnections : JsMap AgentConn)
    (pendingCommands : JsMap PendingEntry) (now : Int) (r : RespReq) :
    JsMap AgentConn × JsMap PendingEntry × List AgentEmit :=
  if r.commandId = "" ∨ r.agentId = "" ∨ r.status = "" then
    (agentConnections, pendingCommands, [])
  else
    let pending' :=
      match mapGet? pendingCommands r.commandId with
      | some entry =>
        let cmd' := { entry.cmd with status := r.status, completedAt := some now }
        mapSet pendingCommands r.commandId
          { entry with cmd := cmd', response := some r }
      | none => pendingCommands
    let conns' :=
      match mapGet? agentConnections r.agentId with
      | some agent =>
        mapSet agentConnections r.agentId
          { agent with lastSeen := now, status := "active" }
      | none => agentConnections
    (conns', pending', [])

/-! ## Message reactions (`src/models/Message.js`) -/

/-- One entry of `messageSchema`'s `reactions` array (`user` is the
ObjectId, compared with `.equals`). -/
structure Reaction where
  user : String
  emoji : String
  deriving DecidableEq, Repr

/-- `messageSchema.methods.addReaction(userId, emoji)`: filter out any
existing reaction by this user, then push the new one (the `.save()`
persistence call is a collaborator). -/
def addReaction (reactions : List Reaction) (userId emoji : String) :
    List Reaction :=
  reactions.filter (fun reaction => !(reaction.user == userId)) ++
    [{ user := userId, emoji := emoji }]

/-- `messageSchema.methods.removeReaction(userId)`. -/
def removeReaction (reactions : List Reaction) (userId : String) :
    List Reaction :=
  reactions.filter (fun reaction => !(reaction.user == userId))

/-! ## Chat socket lifecycle (database-backed `socketHandler.js` and the
in-memory variant) -/

/-- Entry of the chat handler's `activeUsers` map (keyed by socket id). -/
structure ActiveUser where
  userId : String
  username : String
  socketId : String
  deriving DecidableEq, Repr

/-- `sendMessage` payload; absent fields are the empty string, matching
the `data.field || default` idiom. -/
structure SendMsgData where
  content : String
  type : String := ""
  room : String := ""
  deriving DecidableEq, Repr

/-- JavaScript `a || b` on strings. -/
def jsOr (a b : String) : String :=
  if a = "" then b else a

/-- The hydrated message object broadcast as `newMessage`. -/
structure FormattedMessage where
  senderId : String
  senderUsername : String
  content : String
  type : String
  room : String
  deriving DecidableEq, Repr

/-- Observable emissions of the chat `sendMessage` handler. -/
inductive ChatEmit where
  | errorToSender (message : String)
  | newMessageToRoom (room : String) (msg : FormattedMessage)
  deriving DecidableEq, Repr

/-- The database-backed `sendMessage` handler: reject when the socket
has no authenticated `userId`; otherwise persist (the awaited
`message.save()` / `populate` collaborator calls, abstracted to
`persistOk` — any throw lands in the catch block), and only after the
persistence step succeeds broadcast `newMessage` to the room; the catch
block emits `error` to the sending socket only. -/
def sendMessageDb (socketUserId : Option String) (socketUsername : String)
    (persistOk : Bool) (data : SendMsgData) : List ChatEmit :=
  match socketUserId with
  | none => [.errorToSender "Not authenticated"]
  | some uid =>
    if persistOk then
      [.newMessageToRoom (jsOr data.room "general")
        { senderId := uid, senderUsername := socketUsername,
          content := data.content, type := jsOr data.type "text",
          room := jsOr data.room "general" }]
    else
      [.errorToSender "Failed to send message"]

/-- Observable side effects of the chat `disconnect` handlers. -/
inductive DiscEffect where
  | setOnlineFalse (userId : String)
  | userLeft (userId username : String)
  deriving DecidableEq, Repr

/-- The database-backed `disconnect` handler: guarded by
`socket.userId && activeUsers.has(socket.id)`; inside, the registry
entry is removed, then `User.findById` (abstracted to `dbLookup`:
`.error` = throw, `.ok found`) gates the persisted offline update, and
`userLeft` is emitted unless the lookup threw. -/
def disconnectDb (activeUsers : JsMap ActiveUser)
    (socketUserId : Option String) (socketId : String)
    (dbLookup : Except Unit Bool) : JsMap ActiveUser × List DiscEffect :=
  match socketUserId, mapGet? activeUsers socketId with
  | some uid, some user =>
    let activeUsers' := mapDel activeUsers socketId
    match dbLookup with
    | .error _ => (activeUsers', [])
    | .ok found =>
      (activeUsers',
        (if found then [DiscEffect.setOnlineFalse uid] else []) ++
          [DiscEffect.userLeft user.userId user.username])
  | _, _ => (activeUsers, [])

/-- The in-memory variant's `disconnect` handler (same guard, no
persistence). -/
def disconnectMem (activeUsers : JsMap ActiveUser)
    (socketUserId : Option String) (socketId : String) :
    JsMap ActiveUser × List DiscEffect :=
  match socketUserId, mapGet? activeUsers socketId with
  | some _, some user =>
    (mapDel activeUsers socketId,
      [DiscEffect.userLeft user.userId user.username])
  | _, _ => (activeUsers, [])

/-! ## Derived notions used by the theorems -/

/-- The spec invariant: at most one reaction per user per message. -/
def oneReactionPerUser (reactions : List Reaction) : Prop :=
  reactions.Pairwise (fun r1 r2 => r1.user ≠ r2.user)

/-- Apply a sequence of `addReaction(userId, emoji)` calls in order. -/
def applyReactions (reactions : List Reaction) :
    List (String × String) → List Reaction
  | [] => reactions
  | op :: rest => applyReactions (addReaction reactions op.1 op.2) rest

/-- The emoji of the most recent `addReaction` call by `userId` in a
call sequence, if any. -/
def lastEmojiBy (userId : String) (ops : List (String × String)) :
    Option String :=
  ((ops.filter (fun op => op.1 == userId)).getLast?).map Prod.snd

/-! ## Concrete collaborator stand-ins

Closed witnesses and counterexamples need concrete instances for the
abstracted Node-library collaborators. These stand-ins satisfy exactly
the shape facts Node guarantees for the real functions (a 64-hex-char
HMAC digest, a 32-char base64 fallback string, per-call-fresh ids). -/

/-- 64 hex characters: the shape of `hmac.digest('hex')`. -/
def hexZeros64 : String := String.mk (List.replicate 64 '0')

/-- Another 64-hex-char string, byte-distinct from `hexZeros64`. -/
def hexEffs64 : String := String.mk (List.replicate 64 'f')

/-- 32 characters: the shape of the truncated base64 fallback. -/
def base64Cap32 : String := String.mk (List.replicate 32 'A')

/-- Stand-in for the HMAC-SHA256 hex digest collaborator. -/
def hmacHexD : AuthPayload → String := fun _ => hexZeros64

/-- Stand-in for the base64 fallback-signature collaborator. -/
def simpleSigD : AuthPayload → String := fun _ => base64Cap32

/-- Stand-in for the `sha256(id + action + secret)` command hash. -/
def authHashD : String → String → String := fun _ _ => "hash"

/-- Stand-in for `crypto.randomUUID()` draws: injective by length. -/
def uuidD : Nat → String := fun n => String.mk (List.replicate n 'u')

/-- The pending-table entry written by `sendCommandToAgent` for
`command`: `{...authenticatedCommand, status: 'sent', sentAt: now}`. -/
def sentEntry (authHashOf : String → String → String) (command : Command)
    (now : Int) : PendingEntry where
  cmd :=
    { command with
        timestamp := now
        authHash := authHashOf command.id command.action
        status := "sent" }
  sentAt := now

/-- A sample command, as a dispatcher would submit it. -/
def cmdD : Command :=
  { id := "c1", agentId := "ag-1", module := "fs", action := "listFiles",
    params := "", priority := "normal", timestamp := 0,
    status := "pending", authHash := "" }

/-- A sample authenticated agent connection. -/
def agentConnD : AgentConn :=
  { socketId := "s1", agentId := "ag-1", platform := "windows",
    connectedAt := 0, lastSeen := 0, status := "authenticated" }

/-- A second sample agent connection, in status `active`. -/
def agentConnD2 : AgentConn :=
  { socketId := "s2", agentId := "ag-2", platform := "macos",
    connectedAt := 0, lastSeen := 0, status := "active" }

/-- A sample HTTP-registry agent entry. -/
def agentRecD : AgentRec :=
  { agentId := "ag-1", platform := "windows", connectedAt := 0,
    lastSeen := 0, status := "command_sent" }

/-- A sample command response naming an unknown `commandId`. -/
def respReqD : RespReq :=
  { commandId := "c-unknown", agentId := "ag-1", module := "fs",
    status := "completed", data := "", error := "", executionTime := 5 }

/-- A handshake request with a stale timestamp and a well-formed
(32-byte) but wrong signature. -/
def authReqStale : AuthReq :=
  { agentId := "ag-1", platform := "windows", timestamp := 1,
    signature := hexEffs64 }

/-- A handshake request whose signature hex-decodes to one byte, so the
constant-time comparison throws. -/
def authReqShortSig : AuthReq :=
  { agentId := "ag-1", platform := "windows", timestamp := 500000,
    signature := "00" }

/-! ## Basic lemmas about the embedding primitives -/

theorem mapGet?_mapSet_self {v : Type} (m : JsMap v) (k : String) (val : v) :
    mapGet? (mapSet m k val) k = some val := by
  induction m with
  | nil => simp [mapSet, mapHas, mapGet?]
  | cons p m ih =>
    by_cases h : p.1 = k
    · simp [mapSet, mapHas, mapGet?, h]
    · have hh : mapHas (p :: m) k = mapHas m k := by
        simp [mapHas, h]
      by_cases hm : mapHas m k
      · simp only [mapSet, hh, hm, if_true] at *
        simp only [List.map_cons, if_neg, h]
        simp [mapGet?, h] at ih ⊢
        simpa [List.find?_cons, h] using ih
      · simp only [mapSet, hh, hm, if_false] at *
        simp [mapGet?, List.find?_cons, h] at ih ⊢
        exact ih

theorem hexDecode_two_mul_length_le :
    ∀ cs : List Char, 2 * (hexDecode cs).length ≤ cs.length
  | [] => by simp [hexDecode]
  | [c] => by simp [hexDecode]
  | c1 :: c2 :: rest => by
    have ih := hexDecode_two_mul_length_le rest
    cases h1 : hexVal? c1 <;> cases h2 : hexVal? c2 <;>
      simp [hexDecode, h1, h2] <;> omega

theorem hexDecode_length_of_hex :
    ∀ cs : List Char, (∀ c ∈ cs, isHexChar c = true) →
      2 * (hexDecode cs).length + cs.length % 2 = cs.length
  | [], _ => by simp [hexDecode]
  | [c], _ => by simp [hexDecode]
  | c1 :: c2 :: rest, h => by
    have ih := hexDecode_length_of_hex rest (fun c hc => h c (by simp [hc]))
    have h1 : isHexChar c1 = true := h c1 (by simp)
    have h2 : isHexChar c2 = true := h c2 (by simp)
    rw [isHexChar, Option.isSome_iff_exists] at h1 h2
    obtain ⟨v1, hv1⟩ := h1
    obtain ⟨v2, hv2⟩ := h2
    simp [hexDecode, hv1, hv2]
    omega

theorem hexDecode_isHex64 {s : String} (h : isHex64 s) :
    (hexDecode s.data).length = 32 := by
  obtain ⟨hlen, hhex⟩ := h
  have hfull := hexDecode_length_of_hex s.data hhex
  rw [hlen] at hfull
  omega

theorem String_ne_of_length_ne {s t : String}
    (h : s.data.length ≠ t.data.length) : s ≠ t :=
  fun e => h (by rw [e])

/-! ## Characterizing the two signature verifiers -/

theorem timingSafeEqual_eq (a b : List Nat) :
    timingSafeEqual a b =
      if a.length = b.length then .ok (decide (a = b)) else .error () := by
  rfl

theorem verifySignatureSock_eq (hmacHex : AuthPayload → String)
    (data : AuthPayload) (signature : String) :
    verifySignatureSock hmacHex data signature =
      if (hexDecode signature.data).length = (hexDecode (hmacHex data).data).length
      then .ok (decide (hexDecode signature.data = hexDecode (hmacHex data).data))
      else .error () := by
  rfl

/-- Success of the socket verifier forces byte equality with the HMAC
digest. -/
theorem verifySignatureSock_ok_true {hmacHex : AuthPayload → String}
    {data : AuthPayload} {signature : String}
    (h : verifySignatureSock hmacHex data signature = .ok true) :
    hexDecode signature.data = hexDecode (hmacHex data).data := by
  rw [verifySignatureSock_eq] at h
  by_cases hlen : (hexDecode signature.data).length =
      (hexDecode (hmacHex data).data).length
  · rw [if_pos hlen] at h
    simpa using h
  · rw [if_neg hlen] at h
    exact absurd h (by simp)

/-- Success of the HTTP verifier also forces byte equality with the
HMAC digest: the base64 fallback cannot accept, because a signature
reaching the fallback comparison hex-decodes to the digest's 32 bytes
and therefore has at least 64 characters, while the fallback string has
exactly 32. -/
theorem verifySignatureHttp_ok_true {hmacHex simpleSig : AuthPayload → String}
    {data : AuthPayload} {signature : String}
    (hhex : isHex64 (hmacHex data))
    (hsimple : (simpleSig data).data.length = 32)
    (h : verifySignatureHttp hmacHex simpleSig data signature = .ok true) :
    hexDecode signature.data = hexDecode (hmacHex data).data := by
  unfold verifySignatureHttp at h
  rw [timingSafeEqual_eq] at h
  by_cases hlen : (hexDecode signature.data).length =
      (hexDecode (hmacHex data).data).length
  · rw [if_pos hlen] at h
    by_cases heq : hexDecode signature.data = hexDecode (hmacHex data).data
    · exact heq
    · exfalso
      rw [decide_eq_false heq] at h
      have hs : signature = simpleSig data := by simpa using h
      have h32 : (hexDecode signature.data).length = 32 := by
        rw [hlen, hexDecode_isHex64 hhex]
      have hge := hexDecode_two_mul_length_le signature.data
      rw [hs] at hge
      rw [hs] at h32
      omega
  · rw [if_neg hlen] at h
    exact absurd h (by simp)

/-- With a wrong 32-byte signature, the HTTP verifier reports a plain
mismatch (`.ok false`). -/
theorem verifySignatureHttp_ok_false {hmacHex simpleSig : AuthPayload → String}
    {data : AuthPayload} {signature : String}
    (hhex : isHex64 (hmacHex data))
    (hsimple : (simpleSig data).data.length = 32)
    (hlen : (hexDecode signature.data).length = 32)
    (hne : hexDecode signature.data ≠ hexDecode (hmacHex data).data) :
    verifySignatureHttp hmacHex simpleSig data signature = .ok false := by
  unfold verifySignatureHttp
  rw [timingSafeEqual_eq, if_pos (by rw [hlen, hexDecode_isHex64 hhex])]
  rw [decide_eq_false hne]
  have hns : signature ≠ simpleSig data := by
    apply String_ne_of_length_ne
    have hge := hexDecode_two_mul_length_le signature.data
    rw [hsimple]
    omega
  simp [hns]

/-- With a signature of the wrong decoded length, both verifiers throw
(the `timingSafeEqual` length guard). -/
theorem verifySignature_error {hmacHex simpleSig : AuthPayload → String}
    {data : AuthPayload} {signature : String}
    (hhex : isHex64 (hmacHex data))
    (hlen : (hexDecode signature.data).length ≠ 32) :
    verifySignatureSock hmacHex data signature = .error () ∧
    verifySignatureHttp hmacHex simpleSig data signature = .error () := by
  have hne : (hexDecode signature.data).length ≠
      (hexDecode (hmacHex data).data).length := by
    rw [hexDecode_isHex64 hhex]; exact hlen
  constructor
  · rw [verifySignatureSock_eq, if_neg hne]
  · unfold verifySignatureHttp
    rw [timingSafeEqual_eq, if_neg hne]

/-! ## Reaction lemmas -/

theorem filter_addReaction (rs : List Reaction) (u e u' : String) :
    (addReaction rs u e).filter (fun r => r.user == u') =
      if u' = u then [{ user := u, emoji := e }]
      else rs.filter (fun r => r.user == u') := by
  unfold addReaction
  rw [List.filter_append]
  by_cases h : u' = u
  · subst h
    have hnil : (rs.filter (fun r => !(r.user == u'))).filter
        (fun r => r.user == u') = [] := by
      rw [List.filter_eq_nil_iff]
      intro r hr
      have := (List.mem_filter.mp hr).2
      simpa using this
    simp [hnil]
  · have hne : u ≠ u' := fun hc => h hc.symm
    have hsolo : ([({ user := u, emoji := e } : Reaction)]).filter
        (fun r => r.user == u') = [] := by
      simp [hne]
    rw [hsolo, List.append_nil]
    rw [if_neg h]
    induction rs with
    | nil => simp
    | cons r rs ih =>
      by_cases hr : r.user = u
      · have hru : ¬ r.user = u' := by rw [hr]; exact hne
        simp [List.filter_cons, hr, hru, hne, ih]
      · by_cases hru : r.user = u'
        · simp [List.filter_cons, hr, hru, hne, h, ih]
        · simp [List.filter_cons, hr, hru, hne, h, ih]

theorem oneReactionPerUser_addReaction {rs : List Reaction}
    (h : oneReactionPerUser rs) (u e : String) :
    oneReactionPerUser (addReaction rs u e) := by
  unfold oneReactionPerUser addReaction at *
  rw [List.pairwise_append]
  refine ⟨h.filter _, by simp, ?_⟩
  intro a ha b hb
  have hb' : b = { user := u, emoji := e } := by simpa using hb
  subst hb'
  have := (List.mem_filter.mp ha).2
  simpa using this

theorem oneReactionPerUser_applyReactions :
    ∀ (ops : List (String × String)) (rs : List Reaction),
      oneReactionPerUser rs → oneReactionPerUser (applyReactions rs ops)
  | [], _, h => h
  | op :: rest, rs, h =>
    oneReactionPerUser_applyReactions rest _
      (oneReactionPerUser_addReaction h op.1 op.2)

theorem applyReactions_filter :
    ∀ (ops : List (String × String)) (rs : List Reaction) (u : String),
      (applyReactions rs ops).filter (fun r => r.user == u) =
        match lastEmojiBy u ops with
        | some e => [{ user := u, emoji := e }]
        | none => rs.filter (fun r => r.user == u)
  | [], rs, u => by simp [applyReactions, lastEmojiBy]
  | (v, e) :: rest, rs, u => by
    have ih := applyReactions_filter rest (addReaction rs v e) u
    show (applyReactions (addReaction rs v e) rest).filter _ = _
    rw [ih]
    unfold lastEmojiBy
    by_cases hv : v = u
    · rw [List.filter_cons_of_pos (by simpa using hv)]
      cases hF : (rest.filter (fun op => op.1 == u)).getLast? with
      | none =>
        have hFnil : rest.filter (fun op => op.1 == u) = [] :=
          List.getLast?_eq_none_iff.mp hF
        rw [hFnil]
        simp [filter_addReaction, hv]
      | some p =>
        have hFne : rest.filter (fun op => op.1 == u) ≠ [] := by
          intro hc; rw [hc] at hF; simp at hF
        have hcons : (((v, e) : String × String) ::
            rest.filter (fun op => op.1 == u)).getLast? =
            (rest.filter (fun op => op.1 == u)).getLast? := by
          rcases List.exists_cons_of_ne_nil hFne with ⟨a, l, hc⟩
          rw [hc, List.getLast?_cons_cons]
        rw [hcons, hF]
        simp
    · rw [List.filter_cons_of_neg (by simpa using hv)]
      cases hF : (rest.filter (fun op => op.1 == u)).getLast? with
      | none =>
        have huv : ¬ u = v := fun hc => hv hc.symm
        simp [filter_addReaction, huv]
      | some p =>
        simp

/-! ## Claim theorems -/

/-- Claim C6: for every sequence of `addReaction(userId, emoji)` calls
on a message (reactions start empty; quantifying over all call
sequences covers every intermediate moment), the reactions list
contains at most one entry per distinct user, and that user's entry
holds the most recently applied emoji. -/
theorem reactions_one_per_user_latest_emoji (ops : List (String × String)) :
    oneReactionPerUser (applyReactions [] ops) ∧
    ∀ userId : String,
      (applyReactions [] ops).filter (fun r => r.user == userId) =
        match lastEmojiBy userId ops with
        | some emoji => [{ user := userId, emoji := emoji }]
        | none => [] := by
  constructor
  · exact oneReactionPerUser_applyReactions ops []
      (by simp [oneReactionPerUser])
  · intro userId
    have hchar := applyReactions_filter ops [] userId
    cases h : lastEmojiBy userId ops with
    | none => rw [h] at hchar; simpa using hchar
    | some emoji => rw [h] at hchar; simpa using hchar

/-- Claim C7: when persisting a submitted chat message fails, the error
is reported only to the sending connection and no `newMessage`
broadcast is emitted; the room-wide `newMessage` broadcast happens
exactly when persistence succeeded. -/
theorem sendMessage_error_to_sender_only (uid username : String)
    (data : SendMsgData) :
    sendMessageDb (some uid) username false data =
      [ChatEmit.errorToSender "Failed to send message"] ∧
    sendMessageDb (some uid) username true data =
      [ChatEmit.newMessageToRoom (jsOr data.room "general")
        { senderId := uid, senderUsername := username,
          content := data.content, type := jsOr data.type "text",
          room := jsOr data.room "general" }] := by
  constructor <;> rfl

/-- Claim C8: disconnecting a connection that never completed a
successful chat authentication (its socket never acquired a `userId`,
or the active-users registry has no entry for its socket id — only a
completed authentication creates one) is a no-op in both socket-handler
variants: registry unchanged, no `userLeft`, no persisted online-status
update. -/
theorem disconnect_without_session_noop (activeUsers : JsMap ActiveUser)
    (socketUserId : Option String) (socketId : String)
    (dbLookup : Except Unit Bool)
    (h : socketUserId = none ∨ mapGet? activeUsers socketId = none) :
    disconnectDb activeUsers socketUserId socketId dbLookup =
      (activeUsers, []) ∧
    disconnectMem activeUsers socketUserId socketId = (activeUsers, []) := by
  unfold disconnectDb disconnectMem
  rcases h with h | h
  · subst h; simp
  · rw [h]; cases socketUserId <;> simp

/-- Witness for C8 at a concrete unauthenticated connection. -/
theorem disconnect_without_session_noop_witness :
    disconnectDb [] none "s1" (.ok true) = ([], []) ∧
    disconnectMem [] none "s1" = ([], []) :=
  disconnect_without_session_noop [] none "s1" (.ok true) (Or.inl rfl)

/-- Claim C4: dispatching a command to an `agentId` with no registered
AgentConnection fails with the agent-not-found error on both paths
(`POST /api/agents/command` and `sendCommandToAgent`), and neither the
stored-command table nor the pending-correlation table is touched. -/
theorem dispatch_unknown_agent_no_mutation
    (authHashOf : String → String → String) (freshId : String)
    (activeAgents : JsMap AgentRec) (agentCommands : JsMap Command)
    (agentConnections : JsMap AgentConn) (sockets : List String)
    (pendingCommands : JsMap PendingEntry) (now : Int)
    (agentId module action params priority targetId : String)
    (command : Command)
    (hfields : agentId ≠ "" ∧ module ≠ "" ∧ action ≠ "")
    (hhttp : mapHas activeAgents agentId = false)
    (hsock : mapGet? agentConnections targetId = none) :
    commandHttp authHashOf freshId activeAgents agentCommands now agentId
        module action params priority =
      (.agentNotFound, activeAgents, agentCommands) ∧
    sendCommandToAgent authHashOf agentConnections sockets pendingCommands
        now targetId command =
      (.notFound, pendingCommands, []) := by
  obtain ⟨h1, h2, h3⟩ := hfields
  constructor
  · unfold commandHttp
    rw [if_neg (by simp [h1, h2, h3]), if_pos (by simp [hhttp])]
  · unfold sendCommandToAgent
    rw [hsock]

/-- Witness for C4 at a concrete unknown agent. -/
theorem dispatch_unknown_agent_no_mutation_witness :
    commandHttp authHashD "id-1" [] [] 0 "ag-1" "fs" "listFiles" "" "normal" =
      (.agentNotFound, [], []) ∧
    sendCommandToAgent authHashD [] [] [] 0 "ag-1" cmdD =
      (.notFound, [], []) :=
  dispatch_unknown_agent_no_mutation authHashD "id-1" [] [] [] [] [] 0
    "ag-1" "fs" "listFiles" "" "normal" "ag-1" cmdD
    ⟨by decide, by decide, by decide⟩ (by decide) (by decide)

/-- Claim C9: a live-connection dispatch to an agent whose registry
entry exists but whose socket handle is gone throws the distinct
`Agent socket not found` error, *after* the command has been stored
with status `sent` in the pending-command table — so this failure mode
leaves the command recorded, unlike the unknown-agent failure. -/
theorem dispatch_stale_socket_stores_command
    (authHashOf : String → String → String)
    (agentConnections : JsMap AgentConn) (sockets : List String)
    (pendingCommands : JsMap PendingEntry) (now : Int)
    (agentId : String) (command : Command) (agent : AgentConn)
    (hget : mapGet? agentConnections agentId = some agent)
    (hsock : agent.socketId ∉ sockets) :
    sendCommandToAgent authHashOf agentConnections sockets pendingCommands
        now agentId command =
      (.socketMissing,
        mapSet pendingCommands command.id (sentEntry authHashOf command now),
        []) ∧
    mapGet?
        (sendCommandToAgent authHashOf agentConnections sockets
          pendingCommands now agentId command).2.1 command.id =
      some (sentEntry authHashOf command now) ∧
    SendResult.socketMissing ≠ SendResult.notFound := by
  have hmain : sendCommandToAgent authHashOf agentConnections sockets
      pendingCommands now agentId command =
      (.socketMissing,
        mapSet pendingCommands command.id (sentEntry authHashOf command now),
        []) := by
    unfold sendCommandToAgent sentEntry
    rw [hget]
    simp [hsock]
  refine ⟨hmain, ?_, by simp⟩
  rw [hmain]
  exact mapGet?_mapSet_self _ _ _

/-- Witness for C9 at a concrete stale-socket agent. -/
theorem dispatch_stale_socket_stores_command_witness :
    sendCommandToAgent authHashD [("ag-1", agentConnD)] [] [] 7 "ag-1" cmdD =
      (.socketMissing, mapSet [] cmdD.id (sentEntry authHashD cmdD 7), []) :=
  (dispatch_stale_socket_stores_command authHashD [("ag-1", agentConnD)]
    [] [] 7 "ag-1" cmdD agentConnD (by decide) (by decide)).1

/-- Claim C5: a command response whose `commandId` matches no stored
command is rejected by `POST /api/agents/response` with the
command-not-found error, leaving all three tables untouched, while the
live-connection `response:command` handler accepts it, emits nothing
(there is no error emission in that handler), and discards the response
(pending-correlation table unchanged). -/
theorem unknown_response_two_policies (activeAgents : JsMap AgentRec)
    (agentCommands : JsMap Command) (agentResponses : JsMap RespRec)
    (agentConnections : JsMap AgentConn) (pendingCommands : JsMap PendingEntry)
    (now : Int) (r : RespReq)
    (hfields : r.commandId ≠ "" ∧ r.agentId ≠ "" ∧ r.status ≠ "")
    (hhttp : mapHas agentCommands r.commandId = false)
    (hsock : mapGet? pendingCommands r.commandId = none) :
    responseHttp activeAgents agentCommands agentResponses now r =
      (.commandNotFound, activeAgents, agentCommands, agentResponses) ∧
    (responseCommandSock agentConnections pendingCommands now r).2.1 =
      pendingCommands ∧
    (responseCommandSock agentConnections pendingCommands now r).2.2 = [] := by
  obtain ⟨h1, h2, h3⟩ := hfields
  refine ⟨?_, ?_, ?_⟩
  · unfold responseHttp
    rw [if_neg (by simp [h1, h2, h3]), if_pos (by simp [hhttp])]
  · unfold responseCommandSock
    rw [if_neg (by simp [h1, h2, h3]), hsock]
  · unfold responseCommandSock
    rw [if_neg (by simp [h1, h2, h3])]

/-- Witness for C5 at a concrete unknown response. -/
theorem unknown_response_two_policies_witness :
    responseHttp [] [] [] 9 respReqD = (.commandNotFound, [], [], []) ∧
    (responseCommandSock [] [] 9 respReqD).2.1 = [] ∧
    (responseCommandSock [] [] 9 respReqD).2.2 = [] :=
  unknown_response_two_policies [] [] [] [] [] 9 respReqD
    ⟨by decide, by decide, by decide⟩ (by decide) (by decide)

/-- Claim C10: a `response:command` event whose `commandId` is unknown
still refreshes the named agent's registry entry — `lastSeen` becomes
the current time and `status` becomes `active` — while the response
itself is discarded (pending table unchanged) and nothing is emitted. -/
theorem unknown_response_refreshes_agent
    (agentConnections : JsMap AgentConn) (pendingCommands : JsMap PendingEntry)
    (now : Int) (r : RespReq) (agent : AgentConn)
    (hfields : r.commandId ≠ "" ∧ r.agentId ≠ "" ∧ r.status ≠ "")
    (hunknown : mapGet? pendingCommands r.commandId = none)
    (hagent : mapGet? agentConnections r.agentId = some agent) :
    responseCommandSock agentConnections pendingCommands now r =
      (mapSet agentConnections r.agentId
        { agent with lastSeen := now, status := "active" },
       pendingCommands, []) ∧
    mapGet? (responseCommandSock agentConnections pendingCommands now r).1
        r.agentId =
      some { agent with lastSeen := now, status := "active" } := by
  obtain ⟨h1, h2, h3⟩ := hfields
  have hmain : responseCommandSock agentConnections pendingCommands now r =
      (mapSet agentConnections r.agentId
        { agent with lastSeen := now, status := "active" },
       pendingCommands, []) := by
    unfold responseCommandSock
    rw [if_neg (by simp [h1, h2, h3]), hunknown, hagent]
  refine ⟨hmain, ?_⟩
  rw [hmain]
  exact mapGet?_mapSet_self _ _ _

/-- Witness for C10 at a concrete unknown response and known agent. -/
theorem unknown_response_refreshes_agent_witness :
    responseCommandSock [("ag-1", agentConnD)] [] 9 respReqD =
      (mapSet [("ag-1", agentConnD)] "ag-1"
        { agentConnD with lastSeen := 9, status := "active" },
       [], []) :=
  (unknown_response_refreshes_agent [("ag-1", agentConnD)] [] 9 respReqD
    agentConnD ⟨by decide, by decide, by decide⟩ (by decide) (by decide)).1

/-- Counterexample to claim C1 as stated: a supplied signature that is
not the HMAC (here `"00"`, whose hex decoding has 1 byte instead of 32)
is rejected, but *not* with the bad-signature error: the constant-time
comparison throws on the length mismatch, and both paths answer with
their generic authentication-failure error instead. The stand-in
`hmacHexD` has the exact shape of a real HMAC-SHA256 hex digest
(64 hex characters). -/
theorem handshake_wrong_error_counterexample :
    authReqShortSig.signature ≠
      hmacHexD ⟨authReqShortSig.agentId, authReqShortSig.platform,
        authReqShortSig.timestamp⟩ ∧
    agentAuthenticateSock hmacHexD [] 500000 "s1" authReqShortSig =
      (.authFailedGeneric, [], none) ∧
    authenticateHttp hmacHexD simpleSigD [] 500000 authReqShortSig =
      (.serverError, []) ∧
    SockAuthResult.authFailedGeneric ≠ SockAuthResult.authFailedBadSig ∧
    HttpAuthResult.serverError ≠ HttpAuthResult.badSignature := by
  refine ⟨by decide, by decide, by decide, by decide, by decide⟩

/-- Claim C1 as amended: on both handshake paths, authentication can
succeed only when the supplied signature hex-decodes to exactly the
bytes of the expected HMAC-SHA256 hex digest (the HTTP path's base64
fallback can never accept: any signature reaching the fallback
comparison decodes to the digest's 32 bytes and hence has at least 64
characters, while the fallback string has exactly 32). A well-formed
(32-byte) wrong signature is rejected with the bad-signature error; a
signature of any other decoded length makes the constant-time
comparison throw and is rejected with the generic
authentication-failure error. -/
theorem handshake_requires_hmac_signature
    (hmacHex simpleSig : AuthPayload → String)
    (activeAgents : JsMap AgentRec) (agentConnections : JsMap AgentConn)
    (now : Int) (socketId : String) (req : AuthReq)
    (hhex : isHex64 (hmacHex ⟨req.agentId, req.platform, req.timestamp⟩))
    (hsimple : (simpleSig ⟨req.agentId, req.platform,
      req.timestamp⟩).data.length = 32) :
    (∀ aid ts st,
      authenticateHttp hmacHex simpleSig activeAgents now req =
        (.ok aid ts, st) →
      hexDecode req.signature.data =
        hexDecode (hmacHex ⟨req.agentId, req.platform,
          req.timestamp⟩).data) ∧
    (∀ aid ts st sid,
      agentAuthenticateSock hmacHex agentConnections now socketId req =
        (.authenticated aid ts, st, sid) →
      hexDecode req.signature.data =
        hexDecode (hmacHex ⟨req.agentId, req.platform,
          req.timestamp⟩).data) ∧
    (¬(req.agentId = "" ∨ req.platform = "" ∨ req.timestamp = 0 ∨
        req.signature = "") →
      (hexDecode req.signature.data).length = 32 →
      hexDecode req.signature.data ≠
        hexDecode (hmacHex ⟨req.agentId, req.platform,
          req.timestamp⟩).data →
      (authenticateHttp hmacHex simpleSig activeAgents now req).1 =
          .badSignature ∧
        (agentAuthenticateSock hmacHex agentConnections now socketId
          req).1 = .authFailedBadSig) ∧
    (¬(req.agentId = "" ∨ req.platform = "" ∨ req.timestamp = 0 ∨
        req.signature = "") →
      (hexDecode req.signature.data).length ≠ 32 →
      (authenticateHttp hmacHex simpleSig activeAgents now req).1 =
          .serverError ∧
        (agentAuthenticateSock hmacHex agentConnections now socketId
          req).1 = .authFailedGeneric) := by
  refine ⟨?_, ?_, ?_, ?_⟩
  · intro aid ts st h
    unfold authenticateHttp at h
    by_cases hmf : req.agentId = "" ∨ req.platform = "" ∨
        req.timestamp = 0 ∨ req.signature = ""
    · rw [if_pos hmf] at h
      simp at h
    · rw [if_neg hmf] at h
      cases hv : verifySignatureHttp hmacHex simpleSig
          ⟨req.agentId, req.platform, req.timestamp⟩ req.signature with
      | error e => rw [hv] at h; simp at h
      | ok b =>
        cases b with
        | false => rw [hv] at h; simp at h
        | true => exact verifySignatureHttp_ok_true hhex hsimple hv
  · intro aid ts st sid h
    unfold agentAuthenticateSock at h
    by_cases hmf : req.agentId = "" ∨ req.platform = "" ∨
        req.timestamp = 0 ∨ req.signature = ""
    · rw [if_pos hmf] at h
      simp at h
    · rw [if_neg hmf] at h
      cases hv : verifySignatureSock hmacHex
          ⟨req.agentId, req.platform, req.timestamp⟩ req.signature with
      | error e => rw [hv] at h; simp at h
      | ok b =>
        cases b with
        | false => rw [hv] at h; simp at h
        | true => exact verifySignatureSock_ok_true hv
  · intro hmf hlen hne
    have hvh := verifySignatureHttp_ok_false hhex hsimple hlen hne
    have hvs : verifySignatureSock hmacHex
        ⟨req.agentId, req.platform, req.timestamp⟩ req.signature =
        .ok false := by
      rw [verifySignatureSock_eq,
        if_pos (by rw [hlen, hexDecode_isHex64 hhex]),
        decide_eq_false hne]
    constructor
    · unfold authenticateHttp
      rw [if_neg hmf, hvh]
    · unfold agentAuthenticateSock
      rw [if_neg hmf, hvs]
  · intro hmf hlen
    have hv := @verifySignature_error hmacHex simpleSig
      ⟨req.agentId, req.platform, req.timestamp⟩ req.signature hhex hlen
    constructor
    · unfold authenticateHttp
      rw [if_neg hmf, hv.2]
    · unfold agentAuthenticateSock
      rw [if_neg hmf, hv.1]

/-- Witness for the amended C1 at a concrete wrong 32-byte signature. -/
theorem handshake_requires_hmac_signature_witness :
    (authenticateHttp hmacHexD simpleSigD [] 1000000 authReqStale).1 =
      .badSignature ∧
    (agentAuthenticateSock hmacHexD [] 1000000 "s1" authReqStale).1 =
      .authFailedBadSig :=
  (handshake_requires_hmac_signature hmacHexD simpleSigD [] [] 1000000
    "s1" authReqStale (by decide) (by decide)).2.2.1
    (by decide) (by decide) (by decide)

/-- Counterexample to claim C2 as stated: a handshake whose timestamp
is stale (`|now − timestamp| = 999999 > 300000`) but whose signature is
invalid is rejected with the *bad-signature* error, not the
timestamp-expired failure — the signature check runs first — so
"rejected with a timestamp-expired failure … regardless of whether the
supplied signature is valid" fails at this input (no AgentConnection is
registered, though). -/
theorem stale_timestamp_wrong_failure_counterexample :
    ((1000000 : Int) - authReqStale.timestamp).natAbs > 300000 ∧
    authenticateHttp hmacHexD simpleSigD [] 1000000 authReqStale =
      (.badSignature, []) ∧
    agentAuthenticateSock hmacHexD [] 1000000 "s1" authReqStale =
      (.authFailedBadSig, [], none) ∧
    HttpAuthResult.badSignature ≠ HttpAuthResult.timestampExpired ∧
    SockAuthResult.authFailedBadSig ≠ SockAuthResult.authFailedExpired := by
  refine ⟨by decide, by decide, by decide, by decide, by decide⟩

/-- Claim C2 as amended: a handshake whose timestamp satisfies
`|now − timestamp| > 300000` ms is always rejected on both paths and
registers no AgentConnection, regardless of signature validity; the
failure reported is the timestamp-expired one exactly when the request
passed the field check and the signature verification (which run
first), and otherwise the earlier check's failure. -/
theorem stale_timestamp_always_rejected
    (hmacHex simpleSig : AuthPayload → String)
    (activeAgents : JsMap AgentRec) (agentConnections : JsMap AgentConn)
    (now : Int) (socketId : String) (req : AuthReq)
    (hstale : (now - req.timestamp).natAbs > 300000) :
    (authenticateHttp hmacHex simpleSig activeAgents now req).2 =
      activeAgents ∧
    (∀ aid ts, (authenticateHttp hmacHex simpleSig activeAgents now
      req).1 ≠ .ok aid ts) ∧
    (agentAuthenticateSock hmacHex agentConnections now socketId
      req).2.1 = agentConnections ∧
    (agentAuthenticateSock hmacHex agentConnections now socketId
      req).2.2 = none ∧
    (∀ aid ts, (agentAuthenticateSock hmacHex agentConnections now
      socketId req).1 ≠ .authenticated aid ts) ∧
    (¬(req.agentId = "" ∨ req.platform = "" ∨ req.timestamp = 0 ∨
        req.signature = "") →
      verifySignatureHttp hmacHex simpleSig
        ⟨req.agentId, req.platform, req.timestamp⟩ req.signature =
        .ok true →
      (authenticateHttp hmacHex simpleSig activeAgents now req).1 =
        .timestampExpired) ∧
    (¬(req.agentId = "" ∨ req.platform = "" ∨ req.timestamp = 0 ∨
        req.signature = "") →
      verifySignatureSock hmacHex
        ⟨req.agentId, req.platform, req.timestamp⟩ req.signature =
        .ok true →
      (agentAuthenticateSock hmacHex agentConnections now socketId
        req).1 = .authFailedExpired) := by
  have hH : authenticateHttp hmacHex simpleSig activeAgents now req =
      ((authenticateHttp hmacHex simpleSig activeAgents now req).1,
        activeAgents) ∧
      ∀ aid ts, (authenticateHttp hmacHex simpleSig activeAgents now
        req).1 ≠ .ok aid ts := by
    unfold authenticateHttp
    by_cases hmf : req.agentId = "" ∨ req.platform = "" ∨
        req.timestamp = 0 ∨ req.signature = ""
    · rw [if_pos hmf]; simp
    · rw [if_neg hmf]
      cases hv : verifySignatureHttp hmacHex simpleSig
          ⟨req.agentId, req.platform, req.timestamp⟩ req.signature with
      | error e => simp
      | ok b =>
        cases b with
        | false => simp
        | true => rw [if_pos hstale]; simp
  have hS : agentAuthenticateSock hmacHex agentConnections now socketId
        req =
      ((agentAuthenticateSock hmacHex agentConnections now socketId
        req).1, agentConnections, none) ∧
      ∀ aid ts, (agentAuthenticateSock hmacHex agentConnections now
        socketId req).1 ≠ .authenticated aid ts := by
    unfold agentAuthenticateSock
    by_cases hmf : req.agentId = "" ∨ req.platform = "" ∨
        req.timestamp = 0 ∨ req.signature = ""
    · rw [if_pos hmf]; simp
    · rw [if_neg hmf]
      cases hv : verifySignatureSock hmacHex
          ⟨req.agentId, req.platform, req.timestamp⟩ req.signature with
      | error e => simp
      | ok b =>
        cases b with
        | false => simp
        | true => rw [if_pos hstale]; simp
  refine ⟨?_, hH.2, ?_, ?_, hS.2, ?_, ?_⟩
  · exact congrArg Prod.snd hH.1
  · exact congrArg (fun p => p.2.1) hS.1
  · exact congrArg (fun p => p.2.2) hS.1
  · intro hmf hv
    unfold authenticateHttp
    rw [if_neg hmf, hv, if_pos hstale]
  · intro hmf hv
    unfold agentAuthenticateSock
    rw [if_neg hmf, hv, if_pos hstale]

/-- Witness for the amended C2 at a concrete stale handshake. -/
theorem stale_timestamp_always_rejected_witness :
    (authenticateHttp hmacHexD simpleSigD [] 1000000 authReqStale).2 =
      [] ∧
    (agentAuthenticateSock hmacHexD [] 1000000 "s1" authReqStale).2.1 =
      [] :=
  ⟨(stale_timestamp_always_rejected hmacHexD simpleSigD [] [] 1000000
      "s1" authReqStale (by decide)).1,
    (stale_timestamp_always_rejected hmacHexD simpleSigD [] [] 1000000
      "s1" authReqStale (by decide)).2.2.1⟩

/-! ## Broadcast lemmas -/

theorem sendCommandToAgent_emit_id (authHashOf : String → String → String)
    (agentConnections : JsMap AgentConn) (sockets : List String)
    (pendingCommands : JsMap PendingEntry) (now : Int)
    (agentId : String) (command : Command) :
    ∀ em ∈ (sendCommandToAgent authHashOf agentConnections sockets
      pendingCommands now agentId command).2.2, em.cmd.id = command.id := by
  unfold sendCommandToAgent
  cases hget : mapGet? agentConnections agentId with
  | none => simp
  | some agent =>
    by_cases hs : agent.socketId ∈ sockets
    · simp [hs]
    · simp [hs]

theorem broadcastLoop_spec (authHashOf : String → String → String)
    (agentConnections : JsMap AgentConn) (sockets : List String)
    (now : Int) (command : Command) :
    ∀ (agents : List AgentConn) (pending : JsMap PendingEntry),
      (broadcastLoop authHashOf agentConnections sockets now command
        agents pending).1.map Prod.fst = agents.map AgentConn.agentId ∧
      ∀ em ∈ (broadcastLoop authHashOf agentConnections sockets now
        command agents pending).2.2, em.cmd.id = command.id
  | [], pending => by simp [broadcastLoop]
  | agent :: rest, pending => by
    have ih := broadcastLoop_spec authHashOf agentConnections sockets now
      command rest (sendCommandToAgent authHashOf agentConnections sockets
        pending now agent.agentId command).2.1
    have hemit := sendCommandToAgent_emit_id authHashOf agentConnections
      sockets pending now agent.agentId command
    refine ⟨?_, ?_⟩
    · simp only [broadcastLoop, List.map_cons]
      rw [ih.1]
    · intro em hem
      simp only [broadcastLoop, List.mem_append] at hem
      rcases hem with hem | hem
      · exact hemit em hem
      · exact ih.2 em hem

theorem broadcastHttpLoop_ids (authHashOf : String → String → String)
    (uuid : Nat → String) (now : Int)
    (module action params priority : String) :
    ∀ (agents : List String) (n : Nat) (cmds : JsMap Command),
      (broadcastHttpLoop authHashOf uuid now module action params priority
        agents n cmds).1 =
        (List.range agents.length).map (fun i => uuid (n + i))
  | [], n, cmds => by simp [broadcastHttpLoop]
  | a :: rest, n, cmds => by
    have ih := broadcastHttpLoop_ids authHashOf uuid now module action
      params priority rest (n + 1) (mapSet cmds (uuid n)
        { id := uuid n, agentId := a, module := module, action := action,
          params := params, priority := priority, timestamp := now,
          status := "pending", authHash := authHashOf (uuid n) action })
    simp only [broadcastHttpLoop, ih, List.length_cons,
      List.range_succ_eq_map, List.map_cons, List.map_map]
    congr 1
    apply List.map_congr_left
    intro i _
    simp only [Function.comp_apply]
    congr 1
    omega

theorem uuidD_injective : Function.Injective uuidD := by
  intro a b h
  have := congrArg (fun s => s.data.length) h
  simpa [uuidD] using this

/-- Counterexample to claim C3 as stated: broadcasting one command
template through the live-connection path (`broadcastCommandToAllAgents`)
to two authenticated/active agents succeeds for both, but both
recipients' commands carry the *same* `commandId` (`"c1"`) — the
function reuses the one `command.id` it was given, so the per-recipient
ids are not distinct. -/
theorem broadcast_shared_command_id_counterexample :
    (broadcastCommandToAllAgents authHashD
      [("ag-1", agentConnD), ("ag-2", agentConnD2)] ["s1", "s2"] [] 7
      cmdD).1 = [("ag-1", true), ("ag-2", true)] ∧
    ((broadcastCommandToAllAgents authHashD
      [("ag-1", agentConnD), ("ag-2", agentConnD2)] ["s1", "s2"] [] 7
      cmdD).2.2.map (fun em => em.cmd.id)) = ["c1", "c1"] := by
  refine ⟨by decide, by decide⟩

/-- Claim C3 as amended: the two broadcast paths split the claimed
properties. The live-connection path targets exactly the
AgentConnections whose status is `authenticated` or `active`, tolerates
per-agent delivery failures (the per-agent result list always covers
every targeted agent, whatever the socket set), and returns a per-agent
success/failure list — but every recipient's command carries the *same*
`commandId`. The HTTP `/broadcast` route gives each recipient a
distinct fresh `commandId`, but targets every registered agent
regardless of status and returns only the id list (it stores commands
without emitting, so no per-agent delivery failure exists). -/
theorem broadcast_two_paths (authHashOf : String → String → String)
    (uuid : Nat → String) (agentConnections : JsMap AgentConn)
    (sockets : List String) (pendingCommands : JsMap PendingEntry)
    (activeAgents : JsMap AgentRec) (agentCommands : JsMap Command)
    (now : Int) (command : Command)
    (module action params priority : String)
    (huuid : Function.Injective uuid) (hm : module ≠ "") (ha : action ≠ "") :
    ((broadcastCommandToAllAgents authHashOf agentConnections sockets
      pendingCommands now command).1.map Prod.fst =
      ((mapValues agentConnections).filter (fun agent =>
        agent.status == "authenticated" ||
          agent.status == "active")).map AgentConn.agentId) ∧
    (∀ em ∈ (broadcastCommandToAllAgents authHashOf agentConnections
      sockets pendingCommands now command).2.2,
      em.cmd.id = command.id) ∧
    ((broadcastHttp authHashOf uuid activeAgents agentCommands now module
      action params priority).1 =
      .success ((List.range (mapKeys activeAgents).length).map uuid)) ∧
    ((List.range (mapKeys activeAgents).length).map uuid).Nodup := by
  have hloop := broadcastLoop_spec authHashOf agentConnections sockets
    now command ((mapValues agentConnections).filter (fun agent =>
      agent.status == "authenticated" || agent.status == "active"))
    pendingCommands
  refine ⟨hloop.1, hloop.2, ?_, ?_⟩
  · unfold broadcastHttp
    rw [if_neg (by simp [hm, ha])]
    simp [broadcastHttpLoop_ids authHashOf uuid now module action params
      priority]
  · exact (List.nodup_range _).map huuid

/-- Witness for the amended C3 at a concrete two-agent registry. -/
theorem broadcast_two_paths_witness :
    ((broadcastCommandToAllAgents authHashD
      [("ag-1", agentConnD), ("ag-2", agentConnD2)] [] [] 7 cmdD).1.map
      Prod.fst =
      ((mapValues [("ag-1", agentConnD), ("ag-2", agentConnD2)]).filter
        (fun agent => agent.status == "authenticated" ||
          agent.status == "active")).map AgentConn.agentId) ∧
    ((broadcastHttp authHashD uuidD [("ag-1", agentRecD)] [] 7 "fs"
      "listFiles" "" "normal").1 =
      .success ((List.range
        (mapKeys [("ag-1", agentRecD)]).length).map uuidD)) :=
  ⟨(broadcast_two_paths authHashD uuidD
      [("ag-1", agentConnD), ("ag-2", agentConnD2)] [] []
      [("ag-1", agentRecD)] [] 7 cmdD "fs" "listFiles" "" "normal"
      uuidD_injective (by decide) (by decide)).1,
    (broadcast_two_paths authHashD uuidD
      [("ag-1", agentConnD), ("ag-2", agentConnD2)] [] []
      [("ag-1", agentRecD)] [] 7 cmdD "fs" "listFiles" "" "normal"
      uuidD_injective (by decide) (by decide)).2.2.1⟩

end ChatAppServer
